import Mathlib

/-!
Verification of `check_google_api_key.py` (KeyChecker): a shallow embedding of
the probe-result classifier `test_api` and the summary aggregation of `main`,
with theorems checking the specification's claims about them.

Conventions of the embedding:
* Python `dict` values parsed from JSON are `Json.obj` with insertion-ordered
  fields and last-duplicate-wins insertion (as `json.loads` produces).
* Python exceptions that the source handles (`AttributeError` from `.get` /
  `.lower` on a non-dict / non-str, `json.JSONDecodeError`) are modelled with
  `Except String` / `Option`; the string is the exception text the handler
  stores into `result["error"]`.
* JSON numbers are modelled as integers only (no claim involves fractional
  numbers; `parseJson` rejects them, noted at its definition).
-/

set_option maxRecDepth 20000

namespace KeyChecker

/-- JSON values as returned by Python `json.loads`. -/
inductive Json where
  | null
  | bool (b : Bool)
  | num (n : Int)
  | str (s : String)
  | arr (xs : List Json)
  | obj (fields : List (String × Json))

/-- Python truthiness (`bool(x)`) of a JSON value: `None`, `False`, `0`, `""`,
`[]`, `{}` are falsy, everything else truthy. -/
def Json.isTruthy : Json → Bool
  | .null => false
  | .bool b => b
  | .num n => n != 0
  | .str s => s != ""
  | .arr xs => !xs.isEmpty
  | .obj fs => !fs.isEmpty

/-- Whether the value is a JSON object (a Python `dict`). -/
def Json.isObj : Json → Bool
  | .obj _ => true
  | _ => false

/-- Python `type(x).__name__` for the values `json.loads` can produce. -/
def pyTypeName : Json → String
  | .null => "NoneType"
  | .bool _ => "bool"
  | .num _ => "int"
  | .str _ => "str"
  | .arr _ => "list"
  | .obj _ => "dict"

/-- The text of Python `AttributeError` raised by `x.attr` when `x` has no
such attribute, as `str(e)` renders it. -/
def noAttr (j : Json) (attr : String) : String :=
  "'" ++ pyTypeName j ++ "' object has no attribute '" ++ attr ++ "'"

/-- Python `d.get(k)` lookup on the field list of a JSON object (fields are
insertion-ordered with unique keys, so first match is the match). -/
def lookupField : List (String × Json) → String → Option Json
  | [], _ => none
  | (k2, v) :: rest, k => if k2 == k then some v else lookupField rest k

/-- Python `d[k] = v` on an insertion-ordered dict: overwrite in place if the
key exists, else append. -/
def objInsert : List (String × Json) → String → Json → List (String × Json)
  | [], k, v => [(k, v)]
  | (k2, v2) :: rest, k, v =>
      if k2 == k then (k, v) :: rest else (k2, v2) :: objInsert rest k v

/-- Python `d[k] = v` for a string-valued dict (the query-parameter dicts). -/
def dictSet : List (String × String) → String → String → List (String × String)
  | [], k, v => [(k, v)]
  | (k2, v2) :: rest, k, v =>
      if k2 == k then (k, v) :: rest else (k2, v2) :: dictSet rest k v

/-- Whether `pat` occurs as a contiguous run at the front of `s`
(char-list form of Python startswith, used to scan for substrings). -/
def charsContains (pat : List Char) : List Char → Bool
  | [] => List.isPrefixOf pat []
  | c :: cs => List.isPrefixOf pat (c :: cs) || charsContains pat cs

/-- Python `pat in s` substring test. -/
def strContains (s : String) (pat : String) : Bool :=
  charsContains pat.data s.data

/-- Python `s.lower()` (ASCII range; the phrases compared in the source are
ASCII). -/
def pyLower (s : String) : String := ⟨s.data.map Char.toLower⟩

/-- Python `len(s)` (number of characters). -/
def pyLen (s : String) : Nat := s.data.length

/-- Python `s[:n]`. -/
def strTake (s : String) (n : Nat) : String := ⟨s.data.take n⟩

/-- Python `s[-n:]` (for `n` at most `len(s)` this is the last `n`
characters; for shorter strings it is the whole string, as in Python). -/
def pyLastN (s : String) (n : Nat) : String :=
  ⟨s.data.drop (s.data.length - n)⟩

/-! JSON parser modelling `json.loads`. Divergences from Python (none of
which any claim or concrete input in this file exercises): fractional or
exponent number literals are rejected rather than parsed as floats, `\u`
escapes and leading-zero checks are not modelled, and control characters
inside strings are accepted. -/

/-- Skip JSON whitespace. -/
def skipWs : List Char → List Char
  | c :: cs =>
      if c == ' ' || c == '\t' || c == '\n' || c == '\r' then skipWs cs
      else c :: cs
  | [] => []

/-- One-character JSON string escape table (as Python's decoder keeps it:
a mapping from the escape letter to the character it denotes). -/
def escTable : List (Char × Char) :=
  [('"', '"'), ('\\', '\\'), ('/', '/'), ('b', Char.ofNat 8),
   ('f', Char.ofNat 12), ('n', '\n'), ('r', '\r'), ('t', '\t')]

/-- Look the escape letter up in `escTable`. -/
def escChar (c : Char) : Option Char :=
  (escTable.find? (fun p => p.1 == c)).map (fun p => p.2)

/-- Parse the remainder of a JSON string literal (after the opening quote):
the decoded characters and the input past the closing quote. -/
def parseStringRest : List Char → Option (List Char × List Char)
  | [] => none
  | '"' :: rest => some ([], rest)
  | '\\' :: rest =>
      match rest with
      | [] => none
      | e :: rest2 =>
          match escChar e with
          | some c => (parseStringRest rest2).map (fun p => (c :: p.1, p.2))
          | none => none
  | c :: rest => (parseStringRest rest).map (fun p => (c :: p.1, p.2))

/-- Leading decimal digits of the input, and the rest. -/
def takeDigits : List Char → List Char × List Char
  | [] => ([], [])
  | c :: cs =>
      if c.isDigit then
        let p := takeDigits cs
        (c :: p.1, p.2)
      else ([], c :: cs)

/-- Decimal digit list to the number it denotes. -/
def digitsToNat (ds : List Char) : Nat :=
  ds.foldl (fun acc c => acc * 10 + (c.toNat - 48)) 0

/-- Whether the next character would make the literal a float (rejected by
this integer-only model). -/
def floatNext : List Char → Bool
  | c :: _ => c == '.' || c == 'e' || c == 'E'
  | [] => false

/-- Parse a JSON integer literal. -/
def parseIntLit (cs : List Char) : Option (Int × List Char) :=
  match cs with
  | '-' :: rest =>
      let p := takeDigits rest
      if p.1.isEmpty then none
      else if floatNext p.2 then none
      else some (-(digitsToNat p.1 : Int), p.2)
  | _ =>
      let p := takeDigits cs
      if p.1.isEmpty then none
      else if floatNext p.2 then none
      else some ((digitsToNat p.1 : Int), p.2)

mutual

/-- Parse one JSON value; fuel bounds the recursion (each recursive call
consumes at least one input character, so `length + 1` fuel suffices). -/
def parseValue : Nat → List Char → Option (Json × List Char)
  | 0, _ => none
  | fuel + 1, cs =>
      match skipWs cs with
      | '{' :: rest =>
          match skipWs rest with
          | '}' :: rest2 => some (.obj [], rest2)
          | rest2 => parseFields fuel rest2 []
      | '[' :: rest =>
          match skipWs rest with
          | ']' :: rest2 => some (.arr [], rest2)
          | rest2 => parseElems fuel rest2 []
      | '"' :: rest => (parseStringRest rest).map (fun p => (.str ⟨p.1⟩, p.2))
      | 't' :: 'r' :: 'u' :: 'e' :: rest => some (.bool true, rest)
      | 'f' :: 'a' :: 'l' :: 's' :: 'e' :: rest => some (.bool false, rest)
      | 'n' :: 'u' :: 'l' :: 'l' :: rest => some (.null, rest)
      | cs2 => (parseIntLit cs2).map (fun p => (Json.num p.1, p.2))

/-- Parse the fields of a JSON object, accumulating with Python dict
insertion semantics. -/
def parseFields : Nat → List Char → List (String × Json) →
    Option (Json × List Char)
  | 0, _, _ => none
  | fuel + 1, cs, acc =>
      match skipWs cs with
      | '"' :: rest =>
          match parseStringRest rest with
          | none => none
          | some (k, rest2) =>
              match skipWs rest2 with
              | ':' :: rest3 =>
                  match parseValue fuel rest3 with
                  | none => none
                  | some (v, rest4) =>
                      let acc2 := objInsert acc ⟨k⟩ v
                      match skipWs rest4 with
                      | ',' :: rest5 => parseFields fuel rest5 acc2
                      | '}' :: rest5 => some (.obj acc2, rest5)
                      | _ => none
              | _ => none
      | _ => none

/-- Parse the elements of a JSON array. -/
def parseElems : Nat → List Char → List Json → Option (Json × List Char)
  | 0, _, _ => none
  | fuel + 1, cs, acc =>
      match parseValue fuel cs with
      | none => none
      | some (v, rest) =>
          match skipWs rest with
          | ',' :: rest2 => parseElems fuel rest2 (acc ++ [v])
          | ']' :: rest2 => some (.arr (acc ++ [v]), rest2)
          | _ => none

end

/-- Python `json.loads`: parse the whole string as one JSON value
(trailing whitespace allowed), `none` models `json.JSONDecodeError`. -/
def parseJson (s : String) : Option Json :=
  match parseValue (s.data.length + 1) s.data with
  | some (j, rest) => if (skipWs rest).isEmpty then some j else none
  | none => none

/-! The classifier of `test_api` (src/check_google_api_key.py lines 200-357). -/

/-- The denial phrase list (source lines 270-280). -/
def denial_phrases : List String :=
  ["not authorized",
   "not enabled",
   "enable billing",
   "api key not valid",
   "invalid api key",
   "permission denied",
   "access denied",
   "has not been used in project",
   "api is not enabled"]

/-- Source line 282: `any(phrase in error_msg.lower() for phrase in
denial_phrases)`. -/
def isDeniedMsg (error_msg : String) : Bool :=
  denial_phrases.any (fun phrase => strContains (pyLower error_msg) phrase)

/-- Source line 266: `json_response.get("error", {}).get("message")`, with
the final `or ""` of the chain. The stored value of `error` is used even when
it is `null` (Python `dict.get` returns the stored value when the key is
present), so `.get("message")` on a non-dict `error` raises
`AttributeError` (`.error`). -/
def extractErrorMsg3 (fs : List (String × Json)) : Except String Json :=
  match (lookupField fs "error").getD (.obj []) with
  | .obj efs =>
      let v3 := (lookupField efs "message").getD .null
      if v3.isTruthy then .ok v3 else .ok (.str "")
  | ev => .error (noAttr ev "get")

/-- Source lines 264-266: the `or`-chain extracting `error_msg` from the
parsed body. Returns the Python value of the chain (the first truthy hit,
else `""`); raises `AttributeError` (`.error`) when `.get` is called on a
non-dict, exactly where Python would (the chain short-circuits, so a truthy
`error_message` hides a non-dict `error` field here). -/
def extractErrorMsg (json_response : Json) : Except String Json :=
  match json_response with
  | .obj fs =>
      let v1 := (lookupField fs "error_message").getD .null
      if v1.isTruthy then .ok v1
      else
        let v2 := (lookupField fs "errorMessage").getD .null
        if v2.isTruthy then .ok v2
        else extractErrorMsg3 fs
  | j => .error (noAttr j "get")

/-- Python `x == "lit"` for a JSON value (false for non-strings). -/
def Json.isStrEq : Json → String → Bool
  | .str s, t => s == t
  | _, _ => false

/-- Source line 284: `json_response["error"].get("code") in (401, 403)`
(Python `==` of a non-int JSON value with an int literal is false). -/
def codeIn401403 : Option Json → Bool
  | some (.num n) => n == 401 || n == 403
  | _ => false

/-- Source lines 288-305: the `elif` chain below the `error.code` rule.
`statusJ` is the raw value of `json_response.get("status", "")`. -/
def chainRest (statusJ : Json) (error_msg : String) (is_denied : Bool) :
    Bool × Option String :=
  if statusJ.isStrEq "REQUEST_DENIED" && is_denied then
    (false, some (if error_msg == "" then "Request denied" else error_msg))
  else if statusJ.isStrEq "OVER_QUERY_LIMIT"
      || statusJ.isStrEq "RESOURCE_EXHAUSTED" then
    (true, some ("Rate limited (but key has access): " ++ error_msg))
  else if statusJ.isStrEq "REQUEST_DENIED" && !is_denied then
    (true, some ("Possibly accessible (unclear denial): " ++ error_msg))
  else if is_denied then (false, some error_msg)
  else (true, none)

/-- Source lines 264-305: classification of a 2xx body that parsed as JSON:
`(accessible, error)` on normal completion, or the text of the Python
exception that escapes to the catch-all handler at line 354. -/
def classify2xxJson (json_response : Json) :
    Except String (Bool × Option String) :=
  match extractErrorMsg json_response with
  | .error e => .error e
  | .ok msgJ =>
      match json_response with
      | .obj fs =>
          let statusJ := (lookupField fs "status").getD (.str "")
          match msgJ with
          | .str error_msg =>
              let is_denied := isDeniedMsg error_msg
              match lookupField fs "error" with
              | some (.obj efs) =>
                  if codeIn401403 (lookupField efs "code") then
                    .ok (false,
                      some (if error_msg == "" then "Access denied"
                            else error_msg))
                  else .ok (chainRest statusJ error_msg is_denied)
              | some ev => .error (noAttr ev "get")
              | none => .ok (chainRest statusJ error_msg is_denied)
          | _ => .error (noAttr msgJ "lower")
      | j => .error (noAttr j "get")

/-- Source lines 333-340: the diagnostic refinement on the HTTP-error path. -/
def httpRefine (error_msg : String) : String :=
  if strContains error_msg "has not been used"
      || strContains error_msg "is not enabled" then
    "API not enabled for this project"
  else if strContains error_msg "API key not valid"
      || strContains (pyLower error_msg) "invalid" then
    "Invalid API key"
  else if strContains (pyLower error_msg) "denied" then "Access denied"
  else error_msg

/-- Source line 222 / 228: the key as shown in display traces. -/
def maskKey (api_key : String) : String :=
  if pyLen api_key > 12 then strTake api_key 8 ++ "..." ++ pyLastN api_key 4
  else "***"

/-! `urllib.parse.urlencode` with its default `quote_via=quote_plus`. -/

/-- Uppercase hex digit. -/
def hexDigitChar (n : Nat) : Char :=
  if n < 10 then Char.ofNat (48 + n) else Char.ofNat (55 + n)

/-- Percent-encode one byte. -/
def percentByte (b : UInt8) : String :=
  ⟨['%', hexDigitChar (b.toNat / 16), hexDigitChar (b.toNat % 16)]⟩

/-- `quote_plus` of a single char: space becomes `+`, ASCII alphanumerics and
`_.-~` pass through, everything else is percent-encoded per UTF-8 byte. -/
def quotePlusChar (c : Char) : String :=
  if c == ' ' then "+"
  else if c.isAlphanum || c == '_' || c == '.' || c == '-' || c == '~' then
    ⟨[c]⟩
  else String.join (((String.mk [c]).toUTF8.toList).map percentByte)

/-- `quote_plus` of a string. -/
def quotePlusStr (s : String) : String :=
  String.join (s.data.map quotePlusChar)

/-- `urllib.parse.urlencode`: `k=v` pairs joined by `&`. -/
def urlencode (ps : List (String × String)) : String :=
  String.intercalate "&" (ps.map (fun p => quotePlusStr p.1 ++ "=" ++ quotePlusStr p.2))

/-! Data model of `test_api` and `main`. -/

/-- One entry of `GOOGLE_APIS` (source lines 18-197), with the dict defaults
of lines 203-230 made explicit: `method` defaults to `"GET"`, `body` to the
empty dict. -/
structure ApiInfo where
  name : String
  url : String
  params : List (String × String)
  method : String
  body : Json
  paid : Bool
  cost_info : String

/-- `result["request"]` (source lines 236-240). -/
structure RequestTrace where
  method : String
  url : String
  body : Option Json

/-- `result["response"]` (source lines 247-251). -/
structure ResponseTrace where
  status_code : Nat
  headers : List (String × String)
  body : Option Json

/-- The result dict of `test_api` (source lines 207-216). -/
structure ResultRec where
  name : String
  accessible : Bool
  paid : Bool
  cost_info : String
  status : Option Nat
  error : Option String
  request : Option RequestTrace
  response : Option ResponseTrace

/-- What one `urlopen` call produced: a 2xx response (decoded body text and
headers), an `HTTPError` (non-2xx status; `excStr` is Python `str(e)`,
`readBody` is the decoded error body, `none` when reading or decoding it
raises), a `URLError` (transport failure, no response), or any other
exception with its `str(e)` text. -/
inductive RawOutcome where
  | success (status : Nat) (headers : List (String × String)) (body : String)
  | httpError (code : Nat) (excStr : String)
      (headers : List (String × String)) (readBody : Option String)
  | urlError (reason : String)
  | otherExc (msg : String)

/-- Store `b` into `result["response"]["body"]` (mutation of the trace). -/
def setRespBody (r : ResultRec) (b : Json) : ResultRec :=
  { r with response := r.response.map (fun t => { t with body := some b }) }

/-- The truncation suffix of source line 259. -/
def truncSuffix : String := "...\"truncated\"..."

/-- Source lines 242-310: the 2xx branch of `test_api`. The inner `try` at
line 254 catches `json.JSONDecodeError` only — including the one raised at
line 259 by re-parsing the truncated body when verbose and the body exceeds
1000 characters; any other exception falls to the catch-all at line 354,
which stores its text and leaves `accessible` untouched. -/
def handle2xx (r0 : ResultRec) (verbose : Bool) (st : Nat)
    (headers : List (String × String)) (response_data : String) : ResultRec :=
  let r := { r0 with status := some st }
  let r := if verbose then
      { r with response := some { status_code := st, headers := headers, body := none } }
    else r
  match parseJson response_data with
  | none =>
      let r := { r with accessible := true }
      if verbose then
        setRespBody r (.str ("<binary or non-JSON data, "
          ++ toString (pyLen response_data) ++ " bytes>"))
      else r
  | some json_response =>
      let vres : Option ResultRec :=
        if verbose then
          if pyLen response_data > 1000 then
            match parseJson (strTake response_data 1000 ++ truncSuffix) with
            | none => none
            | some jt => some (setRespBody r jt)
          else some (setRespBody r json_response)
        else some r
      match vres with
      | none =>
          let r := { r with accessible := true }
          setRespBody r (.str ("<binary or non-JSON data, "
            ++ toString (pyLen response_data) ++ " bytes>"))
      | some r =>
          match classify2xxJson json_response with
          | .ok p => { r with accessible := p.1, error := p.2 }
          | .error e => { r with error := some e }

/-- Source lines 312-344: the `HTTPError` branch. The bare `except:` at line
343 turns any failure (body read/decode, JSON parse, `in` on a non-dict,
`.get` on a non-dict, substring test on a non-str message) into
`result["error"] = str(e)`; `accessible` is never assigned here. -/
def handleHttpError (r0 : ResultRec) (verbose : Bool) (method : String)
    (display_url : String) (request_body : Option Json) (code : Nat)
    (excStr : String) (headers : List (String × String))
    (readBody : Option String) : ResultRec :=
  let r := { r0 with status := some code }
  match readBody with
  | none => { r with error := some excStr }
  | some error_body =>
      match parseJson error_body with
      | none => { r with error := some excStr }
      | some error_json =>
          let r := if verbose then
              { r with
                request := some { method := method
                                  url := display_url
                                  body := if method != "GET" then request_body else none }
                response := some { status_code := code
                                   headers := headers
                                   body := some error_json } }
            else r
          match error_json with
          | .obj fs =>
              match lookupField fs "error" with
              | none => { r with error := some excStr }
              | some (.obj efs) =>
                  match lookupField efs "message" with
                  | none => { r with error := some (httpRefine excStr) }
                  | some (.str m) => { r with error := some (httpRefine m) }
                  | some _ => { r with error := some excStr }
              | some _ => { r with error := some excStr }
          | _ => { r with error := some excStr }

/-- Source lines 219-233: the display URL (key masked) and the request body
sent (`None` for GET, the descriptor's `body` dict for POST). -/
def displayAndBody (api_info : ApiInfo) (api_key : String) :
    String × Option Json :=
  let url := api_info.url
  let params := dictSet api_info.params "key" api_key
  if api_info.method == "GET" then
    let display_params := dictSet params "key" (maskKey api_key)
    (url ++ "?" ++ urlencode display_params, none)
  else
    (if pyLen api_key > 12 then
       url ++ "?key=" ++ strTake api_key 8 ++ "..." ++ pyLastN api_key 4
     else url ++ "?key=***",
     some api_info.body)

/-- Source lines 207-240: the result dict as initialized before `urlopen`,
request trace included when verbose. -/
def initResult (api_info : ApiInfo) (api_key : String) (verbose : Bool) :
    ResultRec :=
  let result : ResultRec :=
    { name := api_info.name, accessible := false, paid := api_info.paid,
      cost_info := api_info.cost_info, status := none, error := none,
      request := none, response := none }
  if verbose then
    { result with request := some { method := api_info.method
                                    url := (displayAndBody api_info api_key).1
                                    body := (displayAndBody api_info api_key).2 } }
  else result

/-- Source lines 200-357: `test_api`, with the network interaction abstracted
into the `outcome` argument. `verbose` defaults to `False` in the source; the
claims about the classification contract are stated at that default. -/
def test_api (api_info : ApiInfo) (api_key : String) (verbose : Bool)
    (outcome : RawOutcome) : ResultRec :=
  let method := api_info.method
  let display_url := (displayAndBody api_info api_key).1
  let request_body := (displayAndBody api_info api_key).2
  let result := initResult api_info api_key verbose
  match outcome with
  | .success st headers data => handle2xx result verbose st headers data
  | .httpError code excStr headers readBody =>
      handleHttpError result verbose method display_url request_body code
        excStr headers readBody
  | .urlError reason =>
      let r := { result with error := some ("Connection error: " ++ reason) }
      if verbose then
        { r with request := some { method := method
                                   url := display_url
                                   body := if method != "GET" then request_body else none } }
      else r
  | .otherExc msg => { result with error := some msg }

/-- The verdict list of `main`'s loop (source lines 393-395), one probe
outcome per catalog entry. -/
def probeResults (probes : List (ApiInfo × RawOutcome)) (api_key : String)
    (verbose : Bool) : List ResultRec :=
  probes.map (fun p => test_api p.1 api_key verbose p.2)

/-- The `output` dict of `main`'s `--json` mode (source lines 444-451). -/
structure RunSummary where
  total_tested : Nat
  accessible_paid_services : Nat
  accessible_free_services : Nat
  results : List ResultRec

/-- Source lines 385-401 and 444-451: run all probes and derive the counts.
The loop appends each result, appends it to `accessible_paid` when
`accessible` and `paid` both hold, to `accessible_free` when `accessible`
holds and `paid` does not; appending in iteration order is `List.filter`. -/
def computeSummary (probes : List (ApiInfo × RawOutcome)) (api_key : String)
    (verbose : Bool) : RunSummary :=
  let results := probeResults probes api_key verbose
  let accessible_paid := results.filter (fun r => r.accessible && r.paid)
  let accessible_free := results.filter (fun r => r.accessible && !r.paid)
  { total_tested := results.length,
    accessible_paid_services := accessible_paid.length,
    accessible_free_services := accessible_free.length,
    results := results }

/-! Spec-side rendering of the classification rules, for the refinement
comparison of claim C1. These definitions follow the WORDS of spec §4.2
Case B, not the source. -/

/-- Modelled from the spec (§4.2 Case B extraction, third position): the
nested `error.message` field, a hit when it is a non-empty string. -/
def specErrorMessage3 (fs : List (String × Json)) : String :=
  match lookupField fs "error" with
  | some (.obj efs) =>
      match lookupField efs "message" with
      | some (.str s) => s
      | _ => ""
  | _ => ""

/-- Modelled from the spec: one position of the extraction order — the field
value when it is a non-empty string, else the next position's result. -/
def specStage (v : Option Json) (next : String) : String :=
  match v with
  | some (.str s) => if s != "" then s else next
  | _ => next

/-- Modelled from the spec (§4.2 Case B extraction, second position): the
top-level `errorMessage` field. -/
def specErrorMessage2 (fs : List (String × Json)) : String :=
  specStage (lookupField fs "errorMessage") (specErrorMessage3 fs)

/-- Modelled from the spec: "extract an errorMessage by checking, in order, a
top-level error_message field, a top-level errorMessage field, then a nested
error.message field; first non-empty hit wins, else empty string". -/
def specErrorMessage (fs : List (String × Json)) : String :=
  specStage (lookupField fs "error_message") (specErrorMessage2 fs)

/-- Modelled from the spec: the six guarded rules of §4.2 Case B / claim C1,
applied in priority order, first match wins, to a 2xx JSON-object body. -/
def specSixRules (fs : List (String × Json)) : Bool × Option String :=
  let errorMessage := specErrorMessage fs
  let statusJ := (lookupField fs "status").getD (.str "")
  let den := isDeniedMsg errorMessage
  let rule1 :=
    match lookupField fs "error" with
    | some (.obj efs) => codeIn401403 (lookupField efs "code")
    | _ => false
  if rule1 then
    (false, some (if errorMessage == "" then "Access denied" else errorMessage))
  else if statusJ.isStrEq "REQUEST_DENIED" && den then
    (false, some (if errorMessage == "" then "Request denied" else errorMessage))
  else if statusJ.isStrEq "OVER_QUERY_LIMIT"
      || statusJ.isStrEq "RESOURCE_EXHAUSTED" then
    (true, some ("Rate limited (but key has access): " ++ errorMessage))
  else if statusJ.isStrEq "REQUEST_DENIED" && !den then
    (true, some ("Possibly accessible (unclear denial): " ++ errorMessage))
  else if den then (false, some errorMessage)
  else (true, none)

/-! Well-shapedness of a 2xx JSON object body: exactly the objects on which
the source's extraction and error-code test raise no exception. -/

/-- The `error` field, if present, is an object (so `.get` on it cannot
raise). -/
def errFieldOk (fs : List (String × Json)) : Bool :=
  match lookupField fs "error" with
  | none => true
  | some (.obj _) => true
  | some _ => false

/-- Source line 284's guard, on a well-shaped object: the body has an
`error` object whose `code` is 401 or 403. -/
def errCodeDenies (fs : List (String × Json)) : Bool :=
  match lookupField fs "error" with
  | some (.obj efs) => codeIn401403 (lookupField efs "code")
  | _ => false

/-- The url recorded in a request trace (empty when there is no trace). -/
def traceUrl : Option RequestTrace → String
  | some t => t.url
  | none => ""

/-! Concrete fixtures: two catalog entries of `GOOGLE_APIS` (lines 20-26 and
169-175 of the source) and one POST entry (lines 105-113), and response
bodies used in witnesses and counterexamples. -/

/-- The first catalog entry (paid GET service). -/
def demoGet : ApiInfo :=
  { name := "Maps Geocoding API"
    url := "https://maps.googleapis.com/maps/api/geocode/json"
    params := [("address", "1600 Amphitheatre Parkway")]
    method := "GET"
    body := .obj []
    paid := true
    cost_info := "$5 per 1000 requests" }

/-- The PageSpeed catalog entry (free GET service). -/
def demoFree : ApiInfo :=
  { name := "PageSpeed Insights API"
    url := "https://www.googleapis.com/pagespeedonline/v5/runPagespeed"
    params := [("url", "https://www.google.com")]
    method := "GET"
    body := .obj []
    paid := false
    cost_info := "Free" }

/-- The Cloud Vision catalog entry (paid POST service). -/
def demoPost : ApiInfo :=
  { name := "Cloud Vision API"
    url := "https://vision.googleapis.com/v1/images:annotate"
    params := []
    method := "POST"
    body := .obj [("requests", .arr [.obj [("features",
      .arr [.obj [("type", .str "LABEL_DETECTION")]])]])]
    paid := true
    cost_info := "$1.50 per 1000 images" }

/-- A 2xx body whose top-level `error` field is a string, not an object. -/
def oddErrorBody : String := "\x7b\"error\": \"oops\"\x7d"

/-- A REQUEST_DENIED body with a denial phrase. -/
def deniedBody : String :=
  "\x7b\"status\": \"REQUEST_DENIED\", \"error_message\": \"API key not valid. Please pass a valid API key.\"\x7d"

/-- A plain 2xx JSON body with no error indication. -/
def plainBody : String := "\x7b\"id\": \"https://www.google.com/\"\x7d"

/-- An OVER_QUERY_LIMIT body that also carries an `error` object with code
403 (rule 1 fires before rule 3 on it). -/
def quotaErrorBody : String :=
  "\x7b\"status\": \"OVER_QUERY_LIMIT\", \"error\": \x7b\"code\": 403, \"message\": \"Daily quota exceeded\"\x7d\x7d"

/-- An OVER_QUERY_LIMIT body whose message contains a denial phrase. -/
def quotaDenialBody : String :=
  "\x7b\"status\": \"OVER_QUERY_LIMIT\", \"error_message\": \"Permission denied for quota\"\x7d"

/-- An HTTP-error body carrying `error.message`. -/
def invalidKeyBody : String :=
  "\x7b\"error\": \x7b\"code\": 400, \"message\": \"API key not valid. Please pass a valid API key.\"\x7d\x7d"

/-- A valid JSON denial body longer than 1000 characters (a REQUEST_DENIED
denial padded past the verbose truncation threshold of source line 258). -/
def bigBody : String :=
  "\x7b\"status\": \"REQUEST_DENIED\", \"error_message\": \"API key not valid. Please pass a valid API key.\", \"padding\": \""
    ++ String.mk (List.replicate 1000 'a') ++ "\"\x7d"

/-- The two-descriptor scenario of claim C8: the paid service answers 200
with a REQUEST_DENIED denial, the free service answers 200 with plain JSON. -/
def scenarioProbes : List (ApiInfo × RawOutcome) :=
  [(demoGet, .success 200 [] deniedBody),
   (demoFree, .success 200 [] plainBody)]

/-! Theorems settling the claims. -/

/-- The HTTPError branch never changes `accessible`. -/
theorem handleHttpError_accessible (r0 : ResultRec) (verbose : Bool)
    (method display_url : String) (request_body : Option Json) (code : Nat)
    (excStr : String) (hs : List (String × String))
    (readBody : Option String) :
    (handleHttpError r0 verbose method display_url request_body code excStr
      hs readBody).accessible = r0.accessible := by
  unfold handleHttpError
  cases readBody with
  | none => rfl
  | some error_body =>
      cases hpj : parseJson error_body with
      | none => simp [hpj]
      | some error_json =>
          simp only [hpj]
          cases verbose <;> cases error_json <;>
            simp <;>
            (try (rcases h : lookupField _ "error" with _ | ev)) <;>
            (try cases ev) <;> simp [h] <;>
            (try (rcases h2 : lookupField _ "message" with _ | mv)) <;>
            (try cases mv) <;> simp [h2]

/-- `charsContains pat s` decides substring occurrence. -/
theorem charsContains_iff (pat s : List Char) :
    charsContains pat s = true ↔ pat <:+: s := by
  induction s with
  | nil =>
      simp [charsContains, List.isPrefixOf_iff_prefix]
  | cons c cs ih =>
      simp [charsContains, List.isPrefixOf_iff_prefix, ih,
        List.infix_cons_iff]

theorem specErrorMessage3_of_extract (fs : List (String × Json)) (m : String)
    (h : extractErrorMsg3 fs = .ok (.str m)) : specErrorMessage3 fs = m := by
  unfold extractErrorMsg3 at h
  unfold specErrorMessage3
  cases h3 : lookupField fs "error" with
  | none =>
      simp only [h3, Option.getD_none] at h ⊢
      simp only [lookupField, Option.getD_none, Json.isTruthy] at h
      simp at h
      exact h
  | some ev =>
      cases ev with
      | obj efs =>
          simp only [h3, Option.getD_some] at h ⊢
          cases hm : lookupField efs "message" with
          | none =>
              simp only [hm, Option.getD_none, Json.isTruthy] at h ⊢
              simp at h
              exact h
          | some mv =>
              simp only [hm, Option.getD_some] at h ⊢
              by_cases ht : mv.isTruthy = true
              · rw [if_pos ht] at h
                injection h with h
                subst h
                rfl
              · rw [if_neg ht] at h
                injection h with h
                injection h with h
                cases mv <;> simp only [Json.isTruthy] at ht <;> simp_all
      | null => simp only [h3, Option.getD_some] at h; simp at h
      | bool b => simp only [h3, Option.getD_some] at h; simp at h
      | num n => simp only [h3, Option.getD_some] at h; simp at h
      | str s2 => simp only [h3, Option.getD_some] at h; simp at h
      | arr xs => simp only [h3, Option.getD_some] at h; simp at h

theorem spec_stage_of (v : Option Json) (next : Except String Json)
    (specNext : String) (m : String)
    (hnext : next = .ok (.str m) → specNext = m)
    (h : (if (v.getD .null).isTruthy then .ok (v.getD .null) else next)
        = Except.ok (Json.str m)) :
    specStage v specNext = m := by
  unfold specStage
  cases v with
  | none =>
      simp only [Option.getD_none, Json.isTruthy] at h
      simp at h
      exact hnext h
  | some v =>
      simp only [Option.getD_some] at h
      by_cases ht : v.isTruthy = true
      · rw [if_pos ht] at h
        injection h with h
        subst h
        simp only [Json.isTruthy] at ht
        simp [ht]
      · rw [if_neg ht] at h
        have hres := hnext h
        cases v with
        | str s =>
            simp only [Json.isTruthy] at ht
            simp only [ht]
            simpa using hres
        | null => exact hres
        | bool b => exact hres
        | num n => exact hres
        | arr xs => exact hres
        | obj fs2 => exact hres

theorem specErrorMessage_of_extract (fs : List (String × Json)) (m : String)
    (h : extractErrorMsg (.obj fs) = .ok (.str m)) :
    specErrorMessage fs = m := by
  unfold extractErrorMsg at h
  unfold specErrorMessage
  exact spec_stage_of (lookupField fs "error_message") _ _ m
    (fun h2 => by
      unfold specErrorMessage2
      exact spec_stage_of (lookupField fs "errorMessage") _ _ m
        (fun h3 => specErrorMessage3_of_extract fs m h3) h2) h

/-- On a well-shaped object the classifier core completes normally and
returns exactly the spec's six-rule verdict. -/
theorem classify2xxJson_eq_spec (fs : List (String × Json)) (m : String)
    (hmsg : extractErrorMsg (.obj fs) = .ok (.str m))
    (hok : errFieldOk fs = true) :
    classify2xxJson (.obj fs) = .ok (specSixRules fs) := by
  have hspec : specErrorMessage fs = m := specErrorMessage_of_extract fs m hmsg
  unfold classify2xxJson
  simp only [hmsg]
  unfold specSixRules
  rw [hspec]
  cases he : lookupField fs "error" with
  | none =>
      simp only [he]
      rfl
  | some ev =>
      cases ev with
      | obj efs =>
          simp only [he]
          by_cases hcc : codeIn401403 (lookupField efs "code") = true
          · simp only [hcc]
            rfl
          · simp only [Bool.not_eq_true] at hcc
            simp only [hcc]
            rfl
      | null => simp [errFieldOk, he] at hok
      | bool b => simp [errFieldOk, he] at hok
      | num n => simp [errFieldOk, he] at hok
      | str s2 => simp [errFieldOk, he] at hok
      | arr xs => simp [errFieldOk, he] at hok

/-- C1 amended: on well-shaped JSON-object bodies the classifier equals the
spec's six-rule chain. -/
theorem C1_rules_match (info : ApiInfo) (key : String) (st : Nat)
    (hs : List (String × String)) (data : String)
    (fs : List (String × Json)) (m : String)
    (hp : parseJson data = some (.obj fs))
    (hmsg : extractErrorMsg (.obj fs) = .ok (.str m))
    (hok : errFieldOk fs = true) :
    (test_api info key false (.success st hs data)).accessible
        = (specSixRules fs).1
    ∧ (test_api info key false (.success st hs data)).error
        = (specSixRules fs).2 := by
  unfold test_api handle2xx
  simp only [hp, classify2xxJson_eq_spec fs m hmsg hok]
  exact ⟨rfl, rfl⟩

/-- C1 counterexample: on the JSON object with a string-valued `error` field
the six rules say accessible with no diagnostic, but the code raises
AttributeError and the catch-all classifies denied with the exception text. -/
theorem C1_counterexample :
    parseJson oddErrorBody = some (.obj [("error", .str "oops")])
    ∧ specSixRules [("error", .str "oops")] = (true, none)
    ∧ (test_api demoGet "AIzaDemoKey123456789" false
        (.success 200 [] oddErrorBody)).accessible = false
    ∧ (test_api demoGet "AIzaDemoKey123456789" false
        (.success 200 [] oddErrorBody)).error
          = some "'str' object has no attribute 'get'" :=
  ⟨rfl, rfl, rfl, rfl⟩

/-- C1 witness: a REQUEST_DENIED denial body, where both classifier and spec
rules give denied with the message as diagnostic. -/
theorem C1_rules_match_witness :
    (test_api demoGet "AIzaDemoKey123456789" false
        (.success 200 [] deniedBody)).accessible
      = (specSixRules [("status", .str "REQUEST_DENIED"),
          ("error_message",
            .str "API key not valid. Please pass a valid API key.")]).1
    ∧ (test_api demoGet "AIzaDemoKey123456789" false
        (.success 200 [] deniedBody)).error
      = (specSixRules [("status", .str "REQUEST_DENIED"),
          ("error_message",
            .str "API key not valid. Please pass a valid API key.")]).2 :=
  C1_rules_match demoGet "AIzaDemoKey123456789" 200 [] deniedBody
    [("status", .str "REQUEST_DENIED"),
      ("error_message", .str "API key not valid. Please pass a valid API key.")]
    "API key not valid. Please pass a valid API key." rfl rfl rfl

/-- C2: on a valid-JSON denial body longer than 1000 characters, the verbose
flag flips the verdict: non-verbose classifies denied, verbose classifies
accessible with no diagnostic (the truncated re-parse of source line 259
raises JSONDecodeError, which the non-JSON handler of line 306 catches). -/
theorem C2_verbose_flips_verdict :
    pyLen bigBody > 1000
    ∧ (test_api demoGet "AIzaDemoKey123456789" false
        (.success 200 [] bigBody)).accessible = false
    ∧ (test_api demoGet "AIzaDemoKey123456789" false
        (.success 200 [] bigBody)).error
          = some "API key not valid. Please pass a valid API key."
    ∧ (test_api demoGet "AIzaDemoKey123456789" true
        (.success 200 [] bigBody)).accessible = true
    ∧ (test_api demoGet "AIzaDemoKey123456789" true
        (.success 200 [] bigBody)).error = none :=
  ⟨by decide, rfl, rfl, rfl, rfl⟩

/-- C3 counterexample: an OVER_QUERY_LIMIT body carrying an error object
with code 403 is classified denied (rule 1 precedes rule 3). -/
theorem C3_counterexample :
    parseJson quotaErrorBody
      = some (.obj [("status", .str "OVER_QUERY_LIMIT"),
          ("error", .obj [("code", .num 403),
            ("message", .str "Daily quota exceeded")])])
    ∧ (test_api demoGet "AIzaDemoKey123456789" false
        (.success 200 [] quotaErrorBody)).accessible = false
    ∧ (test_api demoGet "AIzaDemoKey123456789" false
        (.success 200 [] quotaErrorBody)).error
          = some "Daily quota exceeded" :=
  ⟨rfl, rfl, rfl⟩

/-- C3 amended: OVER_QUERY_LIMIT yields accessible with the rate-limit
diagnostic regardless of denial phrases, provided no error object with code
401/403 is present (rule 1 priority) and the body is well-shaped. -/
theorem C3_over_query_limit (info : ApiInfo) (key : String) (st : Nat)
    (hs : List (String × String)) (data : String)
    (fs : List (String × Json)) (m : String)
    (hp : parseJson data = some (.obj fs))
    (hst : lookupField fs "status" = some (Json.str "OVER_QUERY_LIMIT"))
    (hmsg : extractErrorMsg (.obj fs) = .ok (.str m))
    (hok : errFieldOk fs = true)
    (hcode : errCodeDenies fs = false) :
    (test_api info key false (.success st hs data)).accessible = true
    ∧ (test_api info key false (.success st hs data)).error
        = some ("Rate limited (but key has access): " ++ m) := by
  unfold test_api handle2xx classify2xxJson
  simp only [hp, hmsg, hst]
  rcases h : lookupField fs "error" with _ | ev
  · simp only [h]
    exact ⟨rfl, rfl⟩
  · cases ev with
    | obj efs =>
        simp only [errCodeDenies, h] at hcode
        simp only [h, hcode]
        exact ⟨rfl, rfl⟩
    | null => simp [errFieldOk, h] at hok
    | bool b => simp [errFieldOk, h] at hok
    | num n => simp [errFieldOk, h] at hok
    | str s => simp [errFieldOk, h] at hok
    | arr xs => simp [errFieldOk, h] at hok

/-- C3 witness: OVER_QUERY_LIMIT with the denial phrase "permission denied"
in its message still comes out accessible. -/
theorem C3_over_query_limit_witness :
    (test_api demoGet "AIzaDemoKey123456789" false
      (.success 200 [] quotaDenialBody)).accessible = true
    ∧ (test_api demoGet "AIzaDemoKey123456789" false
      (.success 200 [] quotaDenialBody)).error
        = some "Rate limited (but key has access): Permission denied for quota" :=
  C3_over_query_limit demoGet "AIzaDemoKey123456789" 200 [] quotaDenialBody
    [("status", .str "OVER_QUERY_LIMIT"),
      ("error_message", .str "Permission denied for quota")]
    "Permission denied for quota" rfl rfl rfl rfl rfl

/-- C4: every non-2xx HTTP outcome is classified denied. -/
theorem C4_http_error_denied (info : ApiInfo) (key : String) (verbose : Bool)
    (code : Nat) (excStr : String) (hs : List (String × String))
    (readBody : Option String) :
    (test_api info key verbose
      (.httpError code excStr hs readBody)).accessible = false := by
  unfold test_api
  simp only []
  rw [handleHttpError_accessible]
  cases verbose <;> rfl

/-- C5 counterexample: at reason "timed out" the diagnostic is
"Connection error: timed out", not the reason itself. -/
theorem C5_counterexample :
    (test_api demoGet "AIzaDemoKey123456789" false
      (.urlError "timed out")).accessible = false
    ∧ (test_api demoGet "AIzaDemoKey123456789" false
      (.urlError "timed out")).error = some "Connection error: timed out"
    ∧ (test_api demoGet "AIzaDemoKey123456789" false
      (.urlError "timed out")).error ≠ some "timed out" :=
  ⟨rfl, rfl, by decide⟩

/-- C5 amended: transport failure is always denied, for every descriptor
(hence regardless of the paid flag), and the diagnostic is the reason
prefixed by "Connection error: ". -/
theorem C5_transport_failure (info : ApiInfo) (key : String) (verbose : Bool)
    (reason : String) :
    (test_api info key verbose (.urlError reason)).accessible = false
    ∧ (test_api info key verbose (.urlError reason)).error
        = some ("Connection error: " ++ reason) := by
  unfold test_api
  cases verbose <;> exact ⟨rfl, rfl⟩

/-- C6: on the HTTP-error path with an error.message string, the diagnostic
follows the ordered substring-refinement chain, and the probe stays denied. -/
theorem C6_http_error_refinement (info : ApiInfo) (key : String)
    (verbose : Bool) (code : Nat) (excStr : String)
    (hs : List (String × String)) (body : String)
    (fs : List (String × Json)) (efs : List (String × Json)) (m : String)
    (hp : parseJson body = some (.obj fs))
    (he : lookupField fs "error" = some (.obj efs))
    (hm : lookupField efs "message" = some (.str m)) :
    (test_api info key verbose
      (.httpError code excStr hs (some body))).accessible = false
    ∧ (test_api info key verbose
      (.httpError code excStr hs (some body))).error
        = some (if strContains m "has not been used"
                  || strContains m "is not enabled" then
                "API not enabled for this project"
              else if strContains m "API key not valid"
                  || strContains (pyLower m) "invalid" then "Invalid API key"
              else if strContains (pyLower m) "denied" then "Access denied"
              else m) := by
  unfold test_api handleHttpError
  simp only [hp, he, hm]
  cases verbose <;> exact ⟨rfl, rfl⟩

/-- C6 witness: HTTP 400 with message "API key not valid. Please pass a
valid API key." refines to "Invalid API key". -/
theorem C6_http_error_refinement_witness :
    (test_api demoGet "AIzaDemoKey123456789" false
      (.httpError 400 "HTTP Error 400: Bad Request" []
        (some invalidKeyBody))).accessible = false
    ∧ (test_api demoGet "AIzaDemoKey123456789" false
      (.httpError 400 "HTTP Error 400: Bad Request" []
        (some invalidKeyBody))).error = some "Invalid API key" :=
  C6_http_error_refinement demoGet "AIzaDemoKey123456789" false 400
    "HTTP Error 400: Bad Request" [] invalidKeyBody
    [("error", .obj [("code", .num 400),
      ("message", .str "API key not valid. Please pass a valid API key.")])]
    [("code", .num 400),
      ("message", .str "API key not valid. Please pass a valid API key.")]
    "API key not valid. Please pass a valid API key." rfl rfl rfl

/-- C7 amended: the mask keeps first 8 and last 4 joined by "..." for keys
longer than 12 characters and is "***" otherwise; for a nonempty key that
contains neither a dot nor a star, the clear-text key never occurs in the
masked form. -/
theorem C7_masking (key : String) :
    (pyLen key > 12 → maskKey key = strTake key 8 ++ "..." ++ pyLastN key 4)
    ∧ (pyLen key ≤ 12 → maskKey key = "***")
    ∧ (key ≠ "" → (∀ c ∈ key.data, c ≠ '.' ∧ c ≠ '*') →
        strContains (maskKey key) key = false) := by
  refine ⟨fun h => by rw [maskKey, if_pos h],
    fun h => by rw [maskKey, if_neg (by omega)], fun hne hchars => ?_⟩
  by_contra hc
  rw [Bool.not_eq_false, strContains, charsContains_iff] at hc
  by_cases h : pyLen key > 12
  · have hmask : (maskKey key).data
        = key.data.take 8 ++ ('.' :: '.' :: '.' :: [])
          ++ key.data.drop (key.data.length - 4) := by
      rw [maskKey, if_pos h, String.data_append, String.data_append]
      rfl
    obtain ⟨a, b, hab⟩ := hc
    have hdot : ('.' : Char) ∉ key.data := fun hm => (hchars _ hm).1 rfl
    have hk0 : key.data.count '.' = 0 := List.count_eq_zero.mpr hdot
    have ht0 : (key.data.take 8).count '.' = 0 :=
      List.count_eq_zero.mpr (fun hm => hdot (List.take_subset 8 key.data hm))
    have hd0 : (key.data.drop (key.data.length - 4)).count '.' = 0 :=
      List.count_eq_zero.mpr
        (fun hm => hdot (List.drop_subset _ key.data hm))
    have hcnt : (maskKey key).data.count '.' = 3 := by
      rw [hmask, List.count_append, List.count_append, ht0, hd0]
      rfl
    have h13 : 12 < key.data.length := h
    have hcnt2 : (a ++ key.data ++ b).count '.' = a.count '.' + b.count '.' := by
      rw [List.count_append, List.count_append, hk0]
      omega
    have hlen : (maskKey key).data.length = 15 := by
      rw [hmask, List.length_append, List.length_append, List.length_take,
        List.length_drop]
      simp only [List.length_cons, List.length_nil]
      omega
    have hlen2 : a.length + key.data.length + b.length = 15 := by
      have hl := congrArg List.length hab
      rw [List.length_append, List.length_append, hlen] at hl
      exact hl
    have hab' := congrArg (List.count '.') hab
    rw [hcnt2, hcnt] at hab'
    have hca := List.count_le_length ('.' : Char) a
    have hcb := List.count_le_length ('.' : Char) b
    omega
  · have hmask : maskKey key = "***" := by rw [maskKey, if_neg h]
    rw [hmask] at hc
    have hsub := hc.subset
    have hne2 : key.data ≠ [] := by
      intro h0
      exact hne (String.ext (h0.trans rfl))
    obtain ⟨c, hcm⟩ := List.exists_mem_of_ne_nil key.data hne2
    have : c ∈ ("***" : String).data := hsub hcm
    have hcstar : c = '*' := by
      simpa using this
    exact (hchars c hcm).2 hcstar

/-- C7 counterexample: for the 15-dot key the masked form IS the clear-text
key, and it appears verbatim in the verbose POST request trace. -/
theorem C7_counterexample :
    maskKey (String.mk (List.replicate 15 '.'))
        = String.mk (List.replicate 15 '.')
    ∧ strContains
        (traceUrl (test_api demoPost (String.mk (List.replicate 15 '.'))
          true (.urlError "unreachable")).request)
        (String.mk (List.replicate 15 '.')) = true :=
  ⟨rfl, rfl⟩

/-- C7 witness: a 20-character alphanumeric key masks to first 8, "...",
last 4, and does not occur in its mask. -/
theorem C7_masking_witness :
    maskKey "AIzaSyDEMOKEY1234567" = "AIzaSyDE...4567"
    ∧ strContains (maskKey "AIzaSyDEMOKEY1234567") "AIzaSyDEMOKEY1234567"
        = false := by
  constructor
  · rw [(C7_masking "AIzaSyDEMOKEY1234567").1 (by decide)]
    rfl
  · exact (C7_masking "AIzaSyDEMOKEY1234567").2.2 (by decide) (by decide)

/-- C8: the summary counts are the number of verdicts, the number accessible
and paid, and the number accessible and free; on the two-descriptor scenario
they are 2, 0 and 1. -/
theorem C8_summary_counts :
    (∀ (probes : List (ApiInfo × RawOutcome)) (key : String) (verbose : Bool),
      (computeSummary probes key verbose).total_tested
          = (probeResults probes key verbose).length
      ∧ (computeSummary probes key verbose).accessible_paid_services
          = ((probeResults probes key verbose).filter
              (fun r => r.accessible && r.paid)).length
      ∧ (computeSummary probes key verbose).accessible_free_services
          = ((probeResults probes key verbose).filter
              (fun r => r.accessible && !r.paid)).length)
    ∧ (computeSummary scenarioProbes "AIzaDemoKey123456789"
        false).total_tested = 2
    ∧ (computeSummary scenarioProbes "AIzaDemoKey123456789"
        false).accessible_paid_services = 0
    ∧ (computeSummary scenarioProbes "AIzaDemoKey123456789"
        false).accessible_free_services = 1 :=
  ⟨fun _ _ _ => ⟨rfl, rfl, rfl⟩, rfl, rfl, rfl⟩

/-- C9: a 2xx body that parses as JSON but not as an object is classified by
the catch-all handler: denied, diagnostic the AttributeError text. -/
theorem C9_nonobject_body (info : ApiInfo) (key : String) (st : Nat)
    (hs : List (String × String)) (data : String) (j : Json)
    (hp : parseJson data = some j) (hno : j.isObj = false) :
    (test_api info key false (.success st hs data)).accessible = false
    ∧ (test_api info key false (.success st hs data)).error
        = some (noAttr j "get") := by
  unfold test_api handle2xx
  simp only [hp]
  cases j with
  | obj fs => simp [Json.isObj] at hno
  | null => exact ⟨rfl, rfl⟩
  | bool b => exact ⟨rfl, rfl⟩
  | num n => exact ⟨rfl, rfl⟩
  | str s => exact ⟨rfl, rfl⟩
  | arr xs => exact ⟨rfl, rfl⟩

/-- C9 witness: the body "[1, 2]". -/
theorem C9_nonobject_body_witness :
    (test_api demoGet "AIzaDemoKey123456789" false
      (.success 200 [] "[1, 2]")).accessible = false
    ∧ (test_api demoGet "AIzaDemoKey123456789" false
      (.success 200 [] "[1, 2]")).error
        = some "'list' object has no attribute 'get'" :=
  C9_nonobject_body demoGet "AIzaDemoKey123456789" 200 [] "[1, 2]"
    (.arr [.num 1, .num 2]) rfl rfl

theorem initResult_paid (info : ApiInfo) (p : Bool) (key : String)
    (verbose : Bool) :
    initResult { info with paid := p } key verbose
      = { initResult info key verbose with paid := p } := by
  cases verbose <;> rfl

theorem handle2xx_paid (r0 : ResultRec) (p : Bool) (verbose : Bool)
    (st : Nat) (hs : List (String × String)) (data : String) :
    handle2xx { r0 with paid := p } verbose st hs data
      = { handle2xx r0 verbose st hs data with paid := p } := by
  unfold handle2xx
  cases verbose with
  | false =>
      cases hpj : parseJson data with
      | none => simp only [hpj] <;> rfl
      | some j =>
          simp only [hpj]
          cases hc : classify2xxJson j <;> simp only [hc] <;> rfl
  | true =>
      cases hpj : parseJson data with
      | none => simp only [hpj] <;> rfl
      | some j =>
          simp only [hpj]
          by_cases hlen : pyLen data > 1000
          · simp only [if_pos hlen]
            cases hpt : parseJson (strTake data 1000 ++ truncSuffix) with
            | none => simp only [hpt] <;> rfl
            | some jt =>
                simp only [hpt]
                cases hc : classify2xxJson j <;> simp only [hc] <;> rfl
          · simp only [if_neg hlen]
            cases hc : classify2xxJson j <;> simp only [hc] <;> rfl

theorem handleHttpError_paid (r0 : ResultRec) (p : Bool) (verbose : Bool)
    (method display_url : String) (request_body : Option Json) (code : Nat)
    (excStr : String) (hs : List (String × String))
    (readBody : Option String) :
    handleHttpError { r0 with paid := p } verbose method display_url
        request_body code excStr hs readBody
      = { handleHttpError r0 verbose method display_url request_body code
            excStr hs readBody with paid := p } := by
  unfold handleHttpError
  cases readBody with
  | none => rfl
  | some error_body =>
      cases hpj : parseJson error_body with
      | none => simp only [hpj]
      | some error_json =>
          simp only [hpj]
          cases error_json with
          | null => cases verbose <;> rfl
          | bool b => cases verbose <;> rfl
          | num n => cases verbose <;> rfl
          | str s2 => cases verbose <;> rfl
          | arr xs => cases verbose <;> rfl
          | obj fs =>
              cases he : lookupField fs "error" with
              | none => simp only [he] <;> cases verbose <;> rfl
              | some ev =>
                  simp only [he]
                  cases ev with
                  | obj efs =>
                      cases hm : lookupField efs "message" with
                      | none => simp only [hm] <;> cases verbose <;> rfl
                      | some mv =>
                          simp only [hm]
                          cases mv <;> cases verbose <;> rfl
                  | null => cases verbose <;> rfl
                  | bool b => cases verbose <;> rfl
                  | num n => cases verbose <;> rfl
                  | str s2 => cases verbose <;> rfl
                  | arr xs => cases verbose <;> rfl

/-- C10: the classification outcome is independent of the paid flag. -/
theorem C10_paid_independence (info : ApiInfo) (p : Bool) (key : String)
    (verbose : Bool) (outcome : RawOutcome) :
    test_api { info with paid := p } key verbose outcome
      = { test_api info key verbose outcome with paid := p } := by
  cases outcome with
  | success st hs data =>
      show handle2xx (initResult { info with paid := p } key verbose)
          verbose st hs data = _
      rw [initResult_paid]
      exact handle2xx_paid (initResult info key verbose) p verbose st hs data
  | httpError code excStr hs readBody =>
      show handleHttpError (initResult { info with paid := p } key verbose)
          verbose info.method (displayAndBody info key).1
          (displayAndBody info key).2 code excStr hs readBody = _
      rw [initResult_paid]
      exact handleHttpError_paid (initResult info key verbose) p verbose
        info.method (displayAndBody info key).1 (displayAndBody info key).2
        code excStr hs readBody
  | urlError reason => cases verbose <;> rfl
  | otherExc msg => cases verbose <;> rfl

end KeyChecker
